import Mathlib

/-!
Verification development for the two dashboard scripts of this repository:
`App.py` (seeded synthetic sports dataset and its EDA) and `App2.py`
(CSV upload, heuristic date parsing and its EDA).

The numeric pipeline of the synthetic generator is modelled over the real
numbers (floats are idealised as reals); numpy's seeded global PRNG is
modelled as an abstract stream of real draws together with a cursor, and
each distribution draw is an arbitrary stream value.  Tables are modelled
as a header of column names plus row-major lists of cells, with `none`
playing the role of a missing value (NaN).
-/

/-- numpy rounding to the nearest integer, ties to even (banker's rounding),
as performed by `ndarray.round`. -/
noncomputable def npRound (x : ℝ) : ℤ :=
  if Int.fract x < 1 / 2 then ⌊x⌋
  else if 1 / 2 < Int.fract x then ⌊x⌋ + 1
  else if Even ⌊x⌋ then ⌊x⌋ else ⌊x⌋ + 1

/-- `ndarray.round(0)`: round to the nearest integer, kept as a float value. -/
noncomputable def npRound0 (x : ℝ) : ℝ := (npRound x : ℝ)

/-- `ndarray.round(1)`: round to one decimal place. -/
noncomputable def npRound1 (x : ℝ) : ℝ := (npRound (10 * x) : ℝ) / 10

/-- `np.clip(x, lo, hi)` (equivalently `ndarray.clip(lo, hi)`). -/
noncomputable def npClip (x lo hi : ℝ) : ℝ := min (max x lo) hi

/-- `np.clip(x, lo, None)` (equivalently `ndarray.clip(lo, None)`). -/
noncomputable def npClipLo (x lo : ℝ) : ℝ := max x lo

/-- numpy `astype(int)` on an element: truncation toward zero. -/
noncomputable def astypeInt (x : ℝ) : ℤ := if 0 ≤ x then ⌊x⌋ else ⌈x⌉

lemma npRound_eq_floor_or (x : ℝ) : npRound x = ⌊x⌋ ∨ npRound x = ⌊x⌋ + 1 := by
  unfold npRound
  split_ifs <;> simp

lemma le_npRound {m : ℤ} {x : ℝ} (h : (m : ℝ) ≤ x) : m ≤ npRound x := by
  have hf : m ≤ ⌊x⌋ := Int.le_floor.mpr h
  rcases npRound_eq_floor_or x with h' | h' <;> omega

lemma npRound_le {m : ℤ} {x : ℝ} (h : x ≤ (m : ℝ)) : npRound x ≤ m := by
  have hfl : ⌊x⌋ ≤ m := by
    have := Int.floor_mono h
    simpa using this
  have hfx := Int.floor_add_fract x
  unfold npRound
  split_ifs with h1 h2 h3
  · exact hfl
  · have hx : (⌊x⌋ : ℝ) < (m : ℝ) := by linarith
    have : ⌊x⌋ < m := by exact_mod_cast hx
    omega
  · exact hfl
  · have hfr : Int.fract x = 1 / 2 := le_antisymm (not_lt.mp h2) (not_lt.mp h1)
    have hx : (⌊x⌋ : ℝ) < (m : ℝ) := by
      rw [hfr] at hfx
      linarith
    have : ⌊x⌋ < m := by exact_mod_cast hx
    omega

lemma le_npRound0 {m : ℤ} {x : ℝ} (h : (m : ℝ) ≤ x) : (m : ℝ) ≤ npRound0 x := by
  unfold npRound0
  exact_mod_cast le_npRound h

lemma npRound0_le {m : ℤ} {x : ℝ} (h : x ≤ (m : ℝ)) : npRound0 x ≤ (m : ℝ) := by
  unfold npRound0
  exact_mod_cast npRound_le h

lemma le_npRound1 {m : ℤ} {x : ℝ} (h : (m : ℝ) ≤ x) : (m : ℝ) ≤ npRound1 x := by
  unfold npRound1
  have h10 : ((10 * m : ℤ) : ℝ) ≤ 10 * x := by push_cast; linarith
  have hc : ((10 * m : ℤ) : ℝ) ≤ (npRound (10 * x) : ℝ) := by
    exact_mod_cast le_npRound h10
  push_cast at hc
  linarith

lemma npRound1_le {m : ℤ} {x : ℝ} (h : x ≤ (m : ℝ)) : npRound1 x ≤ (m : ℝ) := by
  unfold npRound1
  have h10 : 10 * x ≤ ((10 * m : ℤ) : ℝ) := by push_cast; linarith
  have hc : (npRound (10 * x) : ℝ) ≤ ((10 * m : ℤ) : ℝ) := by
    exact_mod_cast npRound_le h10
  push_cast at hc
  linarith

lemma le_npClip (x lo hi : ℝ) (h : lo ≤ hi) : lo ≤ npClip x lo hi :=
  le_min (le_max_right x lo) h

lemma npClip_le (x lo hi : ℝ) : npClip x lo hi ≤ hi := min_le_right _ _

lemma le_npClipLo (x lo : ℝ) : lo ≤ npClipLo x lo := le_max_right x lo

lemma astypeInt_intCast (k : ℤ) : astypeInt (k : ℝ) = k := by
  unfold astypeInt
  split_ifs <;> simp

lemma astypeInt_npRound0 (x : ℝ) : astypeInt (npRound0 x) = npRound x := by
  unfold npRound0
  exact astypeInt_intCast _

lemma cast_astypeInt_npRound0 (x : ℝ) : ((astypeInt (npRound0 x) : ℤ) : ℝ) = npRound0 x := by
  rw [astypeInt_npRound0]
  rfl

lemma npRound_eq_of_lt_half {k : ℤ} {x : ℝ} (h1 : (k : ℝ) ≤ x) (h2 : x < (k : ℝ) + 1 / 2) :
    npRound x = k := by
  have hfl : ⌊x⌋ = k := by
    rw [Int.floor_eq_iff]
    constructor
    · exact h1
    · linarith
  have hfx := Int.floor_add_fract x
  have hfr : Int.fract x < 1 / 2 := by
    rw [hfl] at hfx
    linarith
  unfold npRound
  rw [if_pos hfr, hfl]

/-!
The synthetic generator of `App.py`.  numpy's global PRNG after
`np.random.seed(seed)` is an abstract stream of real draws consumed in
order; each call producing an array of size `n` consumes the next `n`
stream values.  A draw from a continuous distribution is modelled as an
arbitrary stream value (the support of `np.random.normal` is all of ℝ, and
none of the verified properties depends on the distribution itself).
-/

/-- The state of numpy's global PRNG: the remaining stream of draws
and a cursor into it. -/
structure RState where
  stream : ℕ → ℝ
  pos : ℕ

def deportes : List String :=
  ["Fútbol", "Baloncesto", "Béisbol", "Tenis", "Atletismo", "Natación"]

def equipos : List String :=
  ["Tigres", "Leones", "Águilas", "Toros", "Pumas", "Lobos", "Halcones", "Tiburones"]

def posiciones : List String :=
  ["Portero", "Defensa", "Mediocampo", "Delantero", "Alero", "Base", "Lanzador", "Receptor"]

def paises : List String :=
  ["Colombia", "Argentina", "Brasil", "España", "EEUU", "México", "Francia", "Alemania"]

def sexo : List String := ["M", "F"]

/-- One element of `np.random.choice(l, n)`: a deterministic selection from
`l` driven by one PRNG draw. -/
noncomputable def npChoice (l : List String) (x : ℝ) : String :=
  l.getD (Int.toNat ⌊x⌋ % l.length) ""

/-- One element of `np.random.randint(0, k, n)`: a value in `[0, k)` driven by
one PRNG draw. -/
noncomputable def npRandint (x : ℝ) (k : ℕ) : ℕ := Int.toNat ⌊x⌋ % k

/-- Line 84 of `App.py`: `np.random.normal(25, 5, n).clip(16, 45).round(0)`. -/
noncomputable def edadF (z : ℝ) : ℝ := npRound0 (npClip z 16 45)

/-- Line 85 of `App.py`: `np.random.normal(178, 10, n).clip(150, 210).round(1)`. -/
noncomputable def alturaF (z : ℝ) : ℝ := npRound1 (npClip z 150 210)

/-- Lines 86-87 of `App.py`: `peso = (altura - 100) + np.random.normal(10, 8, n)`
then `np.clip(peso, 45, 120).round(1)`. -/
noncomputable def pesoF (altura z : ℝ) : ℝ := npRound1 (npClip ((altura - 100) + z) 45 120)

/-- Line 89 of `App.py`: `np.random.normal(45, 20, n).clip(0, 120).round(0)`. -/
noncomputable def minutosF (z : ℝ) : ℝ := npRound0 (npClip z 0 120)

/-- Line 91 of `App.py`: `(minutos/3) + (-(edad-27)**2)/50 + np.random.normal(0, 5, n)`. -/
noncomputable def rendimientoF (minutos edad z : ℝ) : ℝ :=
  minutos / 3 + (-(edad - 27) ^ 2) / 50 + z

/-- Line 92 of `App.py`: `np.clip(rendimiento + 15, 0, None).round(0)`. -/
noncomputable def puntosF (rendimiento : ℝ) : ℝ := npRound0 (npClipLo (rendimiento + 15) 0)

/-- Line 94 of `App.py`:
`(puntos * np.random.uniform(0.1, 0.4, n) + np.random.normal(0, 2, n)).clip(0, None).round(0)`. -/
noncomputable def asistenciasF (puntos u z : ℝ) : ℝ := npRound0 (npClipLo (puntos * u + z) 0)

/-- Line 95 of `App.py`:
`(np.sqrt(puntos) * np.random.uniform(0.5, 2.0, n) + np.random.normal(0, 1, n)).clip(0, None).round(0)`. -/
noncomputable def rebotesF (puntos u z : ℝ) : ℝ :=
  npRound0 (npClipLo (Real.sqrt puntos * u + z) 0)

/-- Line 97 of `App.py`: `np.random.normal(28, 4, n).clip(15, 40).round(1)`. -/
noncomputable def velocidadF (z : ℝ) : ℝ := npRound1 (npClip z 15 40)

/-- Line 98 of `App.py`:
`(puntos * 3 + asistencias * 2 + rebotes * 1.5 + np.random.normal(0, 20, n)).clip(10, 500).round(1)`. -/
noncomputable def salarioF (puntos asistencias rebotes z : ℝ) : ℝ :=
  npRound1 (npClip (puntos * 3 + asistencias * 2 + rebotes * 1.5 + z) 10 500)

/-- The fixed-schema table built by `generar_dataset` (lines 101-118 of
`App.py`); `fecha_partido` is kept as the day offset from 2023-01-01. -/
structure SportsData where
  deporte : List String
  equipo : List String
  posicion : List String
  pais : List String
  sexo : List String
  lesionado : List String
  fecha_partido : List ℕ
  edad : List ℤ
  altura_cm : List ℝ
  peso_kg : List ℝ
  minutos_jugados : List ℤ
  puntos : List ℤ
  asistencias : List ℤ
  rebotes : List ℤ
  velocidad_max_kmh : List ℝ
  salario_miles_usd : List ℝ

/-- `generar_dataset(n)` (lines 75-119 of `App.py`).  The `k`-th size-`n`
array call of the function body reads stream positions `pos + k*n + i`;
the arrays appear in the source's evaluation order (`edad`, `altura`, the
`peso` noise, `minutos`, the `rendimiento` noise, the `asistencias` uniform
and noise, the `rebotes` uniform and noise, `velocidad`, the `salario`
noise, then the five `np.random.choice` calls, `np.random.rand` for
`lesionado` and `np.random.randint` for `fecha_partido`). -/
noncomputable def generar_dataset (st : RState) (n : ℕ) : SportsData × RState :=
  let g : ℕ → ℕ → ℝ := fun k i => st.stream (st.pos + k * n + i)
  let edad : ℕ → ℝ := fun i => edadF (g 0 i)
  let altura : ℕ → ℝ := fun i => alturaF (g 1 i)
  let peso : ℕ → ℝ := fun i => pesoF (altura i) (g 2 i)
  let minutos : ℕ → ℝ := fun i => minutosF (g 3 i)
  let rendimiento : ℕ → ℝ := fun i => rendimientoF (minutos i) (edad i) (g 4 i)
  let puntos : ℕ → ℝ := fun i => puntosF (rendimiento i)
  let asistencias : ℕ → ℝ := fun i => asistenciasF (puntos i) (g 5 i) (g 6 i)
  let rebotes : ℕ → ℝ := fun i => rebotesF (puntos i) (g 7 i) (g 8 i)
  let velocidad : ℕ → ℝ := fun i => velocidadF (g 9 i)
  let salario : ℕ → ℝ := fun i => salarioF (puntos i) (asistencias i) (rebotes i) (g 10 i)
  (⟨(List.range n).map fun i => npChoice deportes (g 11 i),
    (List.range n).map fun i => npChoice equipos (g 12 i),
    (List.range n).map fun i => npChoice posiciones (g 13 i),
    (List.range n).map fun i => npChoice paises (g 14 i),
    (List.range n).map fun i => npChoice sexo (g 15 i),
    (List.range n).map fun i => if g 16 i < (0.15 : ℝ) then "Sí" else "No",
    (List.range n).map fun i => npRandint (g 17 i) 900,
    (List.range n).map fun i => astypeInt (edad i),
    (List.range n).map fun i => altura i,
    (List.range n).map fun i => peso i,
    (List.range n).map fun i => astypeInt (minutos i),
    (List.range n).map fun i => astypeInt (puntos i),
    (List.range n).map fun i => astypeInt (asistencias i),
    (List.range n).map fun i => astypeInt (rebotes i),
    (List.range n).map fun i => velocidad i,
    (List.range n).map fun i => salario i⟩,
   ⟨st.stream, st.pos + 18 * n⟩)

/-- `np.random.seed(s)` (line 24 of `App.py`): the global PRNG state is
reinitialised from the seed alone, through the abstract seeding map `prng`;
whatever state the PRNG had before is discarded. -/
noncomputable def np_random_seed (prng : ℕ → ℕ → ℝ) (s : ℕ) : RState := ⟨prng s, 0⟩

/-- One run of lines 24 and 121 of `App.py`: call `np.random.seed(s)` (from
an arbitrary earlier PRNG state `pre`, which seeding discards) and then
`generar_dataset(n)`. -/
noncomputable def runSeededGeneration (prng : ℕ → ℕ → ℝ) (pre : RState) (s n : ℕ) :
    SportsData :=
  (generar_dataset (np_random_seed prng s) n).1

/-- Formula stated by the spec for `peso_kg`: `(altura - 100)` plus the noise
draw, clipped to `[45, 120]`. -/
noncomputable def pesoSpec (altura z : ℝ) : ℝ := npClip ((altura - 100) + z) 45 120

/-- Formula stated by the spec for `puntos`:
`clip((minutos/3) + (-(edad-27)^2)/50 + noise + 15, >= 0)`. -/
noncomputable def puntosSpec (minutos edad z : ℝ) : ℝ :=
  npClipLo (minutos / 3 + (-(edad - 27) ^ 2) / 50 + z + 15) 0

/-- Formula stated by the spec for `salario_miles_usd`:
`clip(puntos*3 + asistencias*2 + rebotes*1.5 + noise, [10, 500])`. -/
noncomputable def salarioSpec (p a r z : ℝ) : ℝ :=
  npClip (p * 3 + a * 2 + r * 1.5 + z) 10 500

lemma getD_map_range {α : Type} (f : ℕ → α) {n i : ℕ} (h : i < n) (d : α) :
    (((List.range n).map f).getD i d) = f i := by
  rw [List.getD_eq_getElem?_getD, List.getElem?_map, List.getElem?_range h]
  rfl

lemma edad_bounds (z : ℝ) : 16 ≤ astypeInt (edadF z) ∧ astypeInt (edadF z) ≤ 45 := by
  unfold edadF
  rw [astypeInt_npRound0]
  constructor
  · apply le_npRound
    push_cast
    exact le_npClip z 16 45 (by norm_num)
  · apply npRound_le
    push_cast
    exact npClip_le z 16 45

lemma minutos_bounds (z : ℝ) :
    0 ≤ astypeInt (minutosF z) ∧ astypeInt (minutosF z) ≤ 120 := by
  unfold minutosF
  rw [astypeInt_npRound0]
  constructor
  · apply le_npRound
    push_cast
    exact le_npClip z 0 120 (by norm_num)
  · apply npRound_le
    push_cast
    exact npClip_le z 0 120

lemma altura_bounds (z : ℝ) : (150 : ℝ) ≤ alturaF z ∧ alturaF z ≤ 210 := by
  unfold alturaF
  constructor
  · have h : ((150 : ℤ) : ℝ) ≤ npClip z 150 210 := by
      push_cast
      exact le_npClip z 150 210 (by norm_num)
    have := le_npRound1 h
    push_cast at this
    exact this
  · have h : npClip z 150 210 ≤ ((210 : ℤ) : ℝ) := by
      push_cast
      exact npClip_le z 150 210
    have := npRound1_le h
    push_cast at this
    exact this

lemma peso_bounds (a z : ℝ) : (45 : ℝ) ≤ pesoF a z ∧ pesoF a z ≤ 120 := by
  unfold pesoF
  constructor
  · have h : ((45 : ℤ) : ℝ) ≤ npClip ((a - 100) + z) 45 120 := by
      push_cast
      exact le_npClip _ 45 120 (by norm_num)
    have := le_npRound1 h
    push_cast at this
    exact this
  · have h : npClip ((a - 100) + z) 45 120 ≤ ((120 : ℤ) : ℝ) := by
      push_cast
      exact npClip_le _ 45 120
    have := npRound1_le h
    push_cast at this
    exact this

lemma velocidad_bounds (z : ℝ) : (15 : ℝ) ≤ velocidadF z ∧ velocidadF z ≤ 40 := by
  unfold velocidadF
  constructor
  · have h : ((15 : ℤ) : ℝ) ≤ npClip z 15 40 := by
      push_cast
      exact le_npClip z 15 40 (by norm_num)
    have := le_npRound1 h
    push_cast at this
    exact this
  · have h : npClip z 15 40 ≤ ((40 : ℤ) : ℝ) := by
      push_cast
      exact npClip_le z 15 40
    have := npRound1_le h
    push_cast at this
    exact this

lemma salario_bounds (p a r z : ℝ) :
    (10 : ℝ) ≤ salarioF p a r z ∧ salarioF p a r z ≤ 500 := by
  unfold salarioF
  constructor
  · have h : ((10 : ℤ) : ℝ) ≤ npClip (p * 3 + a * 2 + r * 1.5 + z) 10 500 := by
      push_cast
      exact le_npClip _ 10 500 (by norm_num)
    have := le_npRound1 h
    push_cast at this
    exact this
  · have h : npClip (p * 3 + a * 2 + r * 1.5 + z) 10 500 ≤ ((500 : ℤ) : ℝ) := by
      push_cast
      exact npClip_le _ 10 500
    have := npRound1_le h
    push_cast at this
    exact this

lemma puntos_nonneg (r : ℝ) : 0 ≤ astypeInt (puntosF r) := by
  unfold puntosF
  rw [astypeInt_npRound0]
  apply le_npRound
  push_cast
  exact le_npClipLo _ 0

lemma asistencias_nonneg (p u z : ℝ) : 0 ≤ astypeInt (asistenciasF p u z) := by
  unfold asistenciasF
  rw [astypeInt_npRound0]
  apply le_npRound
  push_cast
  exact le_npClipLo _ 0

lemma rebotes_nonneg (p u z : ℝ) : 0 ≤ astypeInt (rebotesF p u z) := by
  unfold rebotesF
  rw [astypeInt_npRound0]
  apply le_npRound
  push_cast
  exact le_npClipLo _ 0

/-- C1: for every PRNG state (hence every seed) and every requested row count
`n`, each entry of every numeric column produced by `generar_dataset` stays
within its clipped bounds: `edad` in `[16, 45]`, `altura_cm` in `[150, 210]`,
`peso_kg` in `[45, 120]`, `minutos_jugados` in `[0, 120]`, `puntos >= 0`,
`asistencias >= 0`, `rebotes >= 0`, `velocidad_max_kmh` in `[15, 40]` and
`salario_miles_usd` in `[10, 500]`. -/
theorem c1_generated_columns_within_bounds (st : RState) (n i : ℕ) (h : i < n) :
    (16 ≤ (generar_dataset st n).1.edad.getD i 0 ∧
      (generar_dataset st n).1.edad.getD i 0 ≤ 45) ∧
    ((150 : ℝ) ≤ (generar_dataset st n).1.altura_cm.getD i 0 ∧
      (generar_dataset st n).1.altura_cm.getD i 0 ≤ 210) ∧
    ((45 : ℝ) ≤ (generar_dataset st n).1.peso_kg.getD i 0 ∧
      (generar_dataset st n).1.peso_kg.getD i 0 ≤ 120) ∧
    (0 ≤ (generar_dataset st n).1.minutos_jugados.getD i 0 ∧
      (generar_dataset st n).1.minutos_jugados.getD i 0 ≤ 120) ∧
    0 ≤ (generar_dataset st n).1.puntos.getD i 0 ∧
    0 ≤ (generar_dataset st n).1.asistencias.getD i 0 ∧
    0 ≤ (generar_dataset st n).1.rebotes.getD i 0 ∧
    ((15 : ℝ) ≤ (generar_dataset st n).1.velocidad_max_kmh.getD i 0 ∧
      (generar_dataset st n).1.velocidad_max_kmh.getD i 0 ≤ 40) ∧
    ((10 : ℝ) ≤ (generar_dataset st n).1.salario_miles_usd.getD i 0 ∧
      (generar_dataset st n).1.salario_miles_usd.getD i 0 ≤ 500) := by
  simp only [generar_dataset, getD_map_range _ h]
  exact ⟨edad_bounds _, altura_bounds _, peso_bounds _ _, minutos_bounds _,
    puntos_nonneg _, asistencias_nonneg _ _ _, rebotes_nonneg _ _ _,
    velocidad_bounds _, salario_bounds _ _ _ _⟩

/-- The all-zero PRNG stream, used to instantiate universally quantified
statements at a concrete state. -/
noncomputable def zeroState : RState := ⟨fun _ => 0, 0⟩

/-- Witness for C1 at the all-zero stream, one requested row, row index 0. -/
theorem c1_generated_columns_within_bounds_witness :
    (0 : ℕ) < 1 ∧
    ((16 ≤ (generar_dataset zeroState 1).1.edad.getD 0 0 ∧
      (generar_dataset zeroState 1).1.edad.getD 0 0 ≤ 45) ∧
    ((150 : ℝ) ≤ (generar_dataset zeroState 1).1.altura_cm.getD 0 0 ∧
      (generar_dataset zeroState 1).1.altura_cm.getD 0 0 ≤ 210) ∧
    ((45 : ℝ) ≤ (generar_dataset zeroState 1).1.peso_kg.getD 0 0 ∧
      (generar_dataset zeroState 1).1.peso_kg.getD 0 0 ≤ 120) ∧
    (0 ≤ (generar_dataset zeroState 1).1.minutos_jugados.getD 0 0 ∧
      (generar_dataset zeroState 1).1.minutos_jugados.getD 0 0 ≤ 120) ∧
    0 ≤ (generar_dataset zeroState 1).1.puntos.getD 0 0 ∧
    0 ≤ (generar_dataset zeroState 1).1.asistencias.getD 0 0 ∧
    0 ≤ (generar_dataset zeroState 1).1.rebotes.getD 0 0 ∧
    ((15 : ℝ) ≤ (generar_dataset zeroState 1).1.velocidad_max_kmh.getD 0 0 ∧
      (generar_dataset zeroState 1).1.velocidad_max_kmh.getD 0 0 ≤ 40) ∧
    ((10 : ℝ) ≤ (generar_dataset zeroState 1).1.salario_miles_usd.getD 0 0 ∧
      (generar_dataset zeroState 1).1.salario_miles_usd.getD 0 0 ≤ 500)) :=
  ⟨by decide, c1_generated_columns_within_bounds zeroState 1 0 (by decide)⟩

/-- C8: the synthetic generator is deterministic given its seed.  Two runs
that call `np.random.seed(s)` and then `generar_dataset(n)` — starting from
arbitrary, possibly different, earlier PRNG states `pre1` and `pre2` —
produce identical tables (equal values in every cell of every column). -/
theorem c8_seeded_generation_deterministic (prng : ℕ → ℕ → ℝ) (pre1 pre2 : RState)
    (s n : ℕ) :
    runSeededGeneration prng pre1 s n = runSeededGeneration prng pre2 s n := rfl

/-- C3 (amended): the correlated columns of `generar_dataset` follow the
spec's step structure with the final rounding step made explicit —
`peso_kg` is `clip((altura - 100) + noise, [45, 120])` rounded to one
decimal, `puntos` is `clip((minutos/3) + (-(edad-27)^2)/50 + noise + 15, >= 0)`
rounded to an integer, `asistencias` and `rebotes` are noisy functions of
`puntos` (clipped at 0 and rounded to integers), and `salario_miles_usd`
is `clip(puntos*3 + asistencias*2 + rebotes*1.5 + noise, [10, 500])` rounded
to one decimal. -/
theorem c3_correlated_columns_structure (st : RState) (n i : ℕ) (h : i < n) :
    (generar_dataset st n).1.peso_kg.getD i 0 =
      npRound1 (pesoSpec ((generar_dataset st n).1.altura_cm.getD i 0)
        (st.stream (st.pos + 2 * n + i))) ∧
    ((generar_dataset st n).1.puntos.getD i 0 : ℝ) =
      npRound0 (puntosSpec ((generar_dataset st n).1.minutos_jugados.getD i 0 : ℝ)
        ((generar_dataset st n).1.edad.getD i 0 : ℝ) (st.stream (st.pos + 4 * n + i))) ∧
    ((generar_dataset st n).1.asistencias.getD i 0 : ℝ) =
      npRound0 (npClipLo (((generar_dataset st n).1.puntos.getD i 0 : ℝ) *
        st.stream (st.pos + 5 * n + i) + st.stream (st.pos + 6 * n + i)) 0) ∧
    ((generar_dataset st n).1.rebotes.getD i 0 : ℝ) =
      npRound0 (npClipLo (Real.sqrt ((generar_dataset st n).1.puntos.getD i 0 : ℝ) *
        st.stream (st.pos + 7 * n + i) + st.stream (st.pos + 8 * n + i)) 0) ∧
    (generar_dataset st n).1.salario_miles_usd.getD i 0 =
      npRound1 (salarioSpec ((generar_dataset st n).1.puntos.getD i 0 : ℝ)
        ((generar_dataset st n).1.asistencias.getD i 0 : ℝ)
        ((generar_dataset st n).1.rebotes.getD i 0 : ℝ)
        (st.stream (st.pos + 10 * n + i))) := by
  simp only [generar_dataset, getD_map_range _ h]
  simp only [edadF, alturaF, pesoF, minutosF, rendimientoF, puntosF, asistenciasF,
    rebotesF, velocidadF, salarioF, pesoSpec, puntosSpec, salarioSpec,
    cast_astypeInt_npRound0]
  exact ⟨trivial, trivial, trivial, trivial, trivial⟩

/-- Witness for the amended C3 at the all-zero stream, one row, index 0. -/
theorem c3_correlated_columns_structure_witness :
    (0 : ℕ) < 1 ∧
    ((generar_dataset zeroState 1).1.peso_kg.getD 0 0 =
      npRound1 (pesoSpec ((generar_dataset zeroState 1).1.altura_cm.getD 0 0)
        (zeroState.stream (zeroState.pos + 2 * 1 + 0))) ∧
    ((generar_dataset zeroState 1).1.puntos.getD 0 0 : ℝ) =
      npRound0 (puntosSpec ((generar_dataset zeroState 1).1.minutos_jugados.getD 0 0 : ℝ)
        ((generar_dataset zeroState 1).1.edad.getD 0 0 : ℝ)
        (zeroState.stream (zeroState.pos + 4 * 1 + 0))) ∧
    ((generar_dataset zeroState 1).1.asistencias.getD 0 0 : ℝ) =
      npRound0 (npClipLo (((generar_dataset zeroState 1).1.puntos.getD 0 0 : ℝ) *
        zeroState.stream (zeroState.pos + 5 * 1 + 0) +
        zeroState.stream (zeroState.pos + 6 * 1 + 0)) 0) ∧
    ((generar_dataset zeroState 1).1.rebotes.getD 0 0 : ℝ) =
      npRound0 (npClipLo (Real.sqrt ((generar_dataset zeroState 1).1.puntos.getD 0 0 : ℝ) *
        zeroState.stream (zeroState.pos + 7 * 1 + 0) +
        zeroState.stream (zeroState.pos + 8 * 1 + 0)) 0) ∧
    (generar_dataset zeroState 1).1.salario_miles_usd.getD 0 0 =
      npRound1 (salarioSpec ((generar_dataset zeroState 1).1.puntos.getD 0 0 : ℝ)
        ((generar_dataset zeroState 1).1.asistencias.getD 0 0 : ℝ)
        ((generar_dataset zeroState 1).1.rebotes.getD 0 0 : ℝ)
        (zeroState.stream (zeroState.pos + 10 * 1 + 0)))) :=
  ⟨by decide, c3_correlated_columns_structure zeroState 1 0 (by decide)⟩

/-- A PRNG state whose third size-`n` array draw (the `peso` noise, with
`n = 1`) is `6/25 = 0.24` and whose other draws are `0`. -/
noncomputable def stQuarter : RState := ⟨fun k => if k = 2 then 6 / 25 else 0, 0⟩

/-- Counterexample to C3 as stated: with the `peso` noise draw `0.24` the
generated `peso_kg` cell is `50.2` (the clipped value `50.24` rounded to one
decimal), which differs from the claim's unrounded
`clip((altura - 100) + noise, [45, 120]) = 50.24`. -/
theorem c3_counterexample :
    (generar_dataset stQuarter 1).1.peso_kg.getD 0 0 ≠
      pesoSpec ((generar_dataset stQuarter 1).1.altura_cm.getD 0 0)
        (stQuarter.stream (stQuarter.pos + 2 * 1 + 0)) := by
  have h01 : (0 : ℕ) < 1 := Nat.zero_lt_one
  simp only [generar_dataset, getD_map_range _ h01]
  have hs1 : stQuarter.stream (stQuarter.pos + 1 * 1 + 0) = 0 := by
    norm_num [stQuarter]
  have hs2 : stQuarter.stream (stQuarter.pos + 2 * 1 + 0) = 6 / 25 := by
    norm_num [stQuarter]
  rw [hs1, hs2]
  have ha : alturaF 0 = 150 := by
    unfold alturaF
    have hc : npClip (0 : ℝ) 150 210 = 150 := by
      unfold npClip
      rw [max_eq_right (by norm_num : (0 : ℝ) ≤ 150),
        min_eq_left (by norm_num : (150 : ℝ) ≤ 210)]
    rw [hc]
    unfold npRound1
    have hv : npRound ((10 : ℝ) * 150) = 1500 := by
      apply npRound_eq_of_lt_half <;> norm_num
    rw [hv]
    norm_num
  rw [ha]
  have hl : pesoF 150 (6 / 25) = 251 / 5 := by
    unfold pesoF
    have hc : npClip ((150 : ℝ) - 100 + 6 / 25) 45 120 = 1256 / 25 := by
      unfold npClip
      rw [max_eq_left (by norm_num), min_eq_left (by norm_num)]
      norm_num
    rw [hc]
    unfold npRound1
    have hv : npRound ((10 : ℝ) * (1256 / 25)) = 502 := by
      apply npRound_eq_of_lt_half <;> norm_num
    rw [hv]
    norm_num
  have hr : pesoSpec 150 (6 / 25) = 1256 / 25 := by
    unfold pesoSpec npClip
    rw [max_eq_left (by norm_num), min_eq_left (by norm_num)]
    norm_num
  rw [hl, hr]
  norm_num

/-!
Tables for the pandas operations shared by both dashboards: a header of
column names and row-major cells, `none` standing for a missing value.
Strings are modelled as lists of characters.
-/

/-- A data frame: column names plus row-major cells. -/
structure Df (α : Type) where
  header : List (List Char)
  rows : List (List α)

/-- Elementwise map that also passes the position, counting from `k`. -/
def mapIdxFrom {α β : Type} (f : ℕ → α → β) : ℕ → List α → List β
  | _, [] => []
  | k, a :: as => f k a :: mapIdxFrom f (k + 1) as

lemma length_mapIdxFrom {α β : Type} (f : ℕ → α → β) (k : ℕ) (l : List α) :
    (mapIdxFrom f k l).length = l.length := by
  induction l generalizing k with
  | nil => rfl
  | cons a as ih => simp [mapIdxFrom, ih]

lemma getD_mapIdxFrom {α β : Type} (f : ℕ → α → β) (k : ℕ) (l : List α)
    {i : ℕ} (h : i < l.length) (da : α) (db : β) :
    (mapIdxFrom f k l).getD i db = f (k + i) (l.getD i da) := by
  induction l generalizing k i with
  | nil => simp at h
  | cons a as ih =>
    cases i with
    | zero => simp [mapIdxFrom]
    | succ j =>
      have hj : j < as.length := by simpa using h
      have hk : k + 1 + j = k + (j + 1) := by omega
      simp only [mapIdxFrom, List.getD_cons_succ]
      rw [ih (k + 1) hj, hk]

/-- `df_all.sample(n=k, random_state=...) if len(df_all) > k else df_all.copy()`
(line 74 of `App2.py`); `idx` abstracts the random row selection derived from
the sampling seed. -/
def dfSample {α : Type} (df : Df α) (k : ℕ) (idx : ℕ → ℕ) : Df α :=
  if k < df.rows.length then
    ⟨df.header, (List.range k).map fun i => df.rows.getD (idx i) []⟩
  else ⟨df.header, df.rows⟩

/-- `df.mask(mask)` over a Boolean mask (lines 132-134 of `App.py` and 91-93
of `App2.py`): every cell whose mask entry is true becomes missing, every
other cell is kept. -/
def dfMask {α : Type} (df : Df (Option α)) (m : ℕ → ℕ → Bool) : Df (Option α) :=
  ⟨df.header,
   mapIdxFrom (fun i row => mapIdxFrom (fun j c => if m i j then none else c) 0 row)
     0 df.rows⟩

/-- `df[cols].copy()`: restrict a table to the selected columns, in selection
order (line 129 of `App.py`, line 84 of `App2.py`). -/
def dfSelect {α : Type} (df : Df (Option α)) (cols : List (List Char)) : Df (Option α) :=
  ⟨cols, df.rows.map fun r => cols.map fun nm => r.getD (df.header.indexOf nm) none⟩

/-- C2: `generar_dataset(n)` returns exactly `n` rows (every column of the
built table has length `n`); the table `df_sampled` of `App2.py` has exactly
`tam_muestra` rows whenever, as the sidebar slider guarantees, the requested
size is at most the number of available rows; and the NA-injection step
`df.mask` never changes the row count. -/
theorem c2_row_counts {α : Type} (st : RState) (n : ℕ) (dfa : Df α) (k : ℕ)
    (idx : ℕ → ℕ) (dfb : Df (Option α)) (m : ℕ → ℕ → Bool)
    (hk : k ≤ dfa.rows.length) :
    ((generar_dataset st n).1.deporte.length = n ∧
     (generar_dataset st n).1.equipo.length = n ∧
     (generar_dataset st n).1.posicion.length = n ∧
     (generar_dataset st n).1.pais.length = n ∧
     (generar_dataset st n).1.sexo.length = n ∧
     (generar_dataset st n).1.lesionado.length = n ∧
     (generar_dataset st n).1.fecha_partido.length = n ∧
     (generar_dataset st n).1.edad.length = n ∧
     (generar_dataset st n).1.altura_cm.length = n ∧
     (generar_dataset st n).1.peso_kg.length = n ∧
     (generar_dataset st n).1.minutos_jugados.length = n ∧
     (generar_dataset st n).1.puntos.length = n ∧
     (generar_dataset st n).1.asistencias.length = n ∧
     (generar_dataset st n).1.rebotes.length = n ∧
     (generar_dataset st n).1.velocidad_max_kmh.length = n ∧
     (generar_dataset st n).1.salario_miles_usd.length = n) ∧
    (dfSample dfa k idx).rows.length = k ∧
    (dfMask dfb m).rows.length = dfb.rows.length := by
  refine ⟨?_, ?_, ?_⟩
  · simp [generar_dataset]
  · unfold dfSample
    split_ifs with hlt
    · simp
    · have hle : dfa.rows.length ≤ k := not_lt.mp hlt
      show dfa.rows.length = k
      omega
  · show (mapIdxFrom _ 0 dfb.rows).length = dfb.rows.length
    exact length_mapIdxFrom _ _ _

/-- Witness for C2 at concrete inputs: the all-zero stream with one requested
row, a one-row table sampled down to one row, and a one-row masked table. -/
theorem c2_row_counts_witness :
    (1 : ℕ) ≤ (Df.mk [['a']] [[(0 : ℕ)]]).rows.length ∧
    (((generar_dataset zeroState 1).1.deporte.length = 1 ∧
     (generar_dataset zeroState 1).1.equipo.length = 1 ∧
     (generar_dataset zeroState 1).1.posicion.length = 1 ∧
     (generar_dataset zeroState 1).1.pais.length = 1 ∧
     (generar_dataset zeroState 1).1.sexo.length = 1 ∧
     (generar_dataset zeroState 1).1.lesionado.length = 1 ∧
     (generar_dataset zeroState 1).1.fecha_partido.length = 1 ∧
     (generar_dataset zeroState 1).1.edad.length = 1 ∧
     (generar_dataset zeroState 1).1.altura_cm.length = 1 ∧
     (generar_dataset zeroState 1).1.peso_kg.length = 1 ∧
     (generar_dataset zeroState 1).1.minutos_jugados.length = 1 ∧
     (generar_dataset zeroState 1).1.puntos.length = 1 ∧
     (generar_dataset zeroState 1).1.asistencias.length = 1 ∧
     (generar_dataset zeroState 1).1.rebotes.length = 1 ∧
     (generar_dataset zeroState 1).1.velocidad_max_kmh.length = 1 ∧
     (generar_dataset zeroState 1).1.salario_miles_usd.length = 1) ∧
    (dfSample (Df.mk [['a']] [[(0 : ℕ)]]) 1 id).rows.length = 1 ∧
    (dfMask (Df.mk [['a']] [[some (0 : ℕ)]]) fun _ _ => true).rows.length =
      (Df.mk [['a']] [[some (0 : ℕ)]]).rows.length) :=
  ⟨by decide,
   c2_row_counts zeroState 1 (Df.mk [['a']] [[(0 : ℕ)]]) 1 id
     (Df.mk [['a']] [[some (0 : ℕ)]]) (fun _ _ => true) (by decide)⟩

/-- C9: `df.mask` preserves the table's shape — same header, same number of
rows, each row keeping its length — leaves every cell whose mask entry is
false equal to the corresponding input cell, and turns exactly the masked
cells into missing values. -/
theorem c9_mask_preserves_frame {α : Type} (df : Df (Option α)) (m : ℕ → ℕ → Bool)
    (i j : ℕ) (hi : i < df.rows.length) (hj : j < (df.rows.getD i []).length) :
    (dfMask df m).header = df.header ∧
    (dfMask df m).rows.length = df.rows.length ∧
    ((dfMask df m).rows.getD i []).length = (df.rows.getD i []).length ∧
    (m i j = false →
      ((dfMask df m).rows.getD i []).getD j none = (df.rows.getD i []).getD j none) ∧
    (m i j = true → ((dfMask df m).rows.getD i []).getD j none = none) := by
  have hrow : (dfMask df m).rows.getD i [] =
      mapIdxFrom (fun jj c => if m i jj then none else c) 0 (df.rows.getD i []) := by
    show (mapIdxFrom _ 0 df.rows).getD i [] = _
    rw [getD_mapIdxFrom _ 0 _ hi [] []]
    norm_num
  refine ⟨rfl, ?_, ?_, ?_, ?_⟩
  · show (mapIdxFrom _ 0 df.rows).length = df.rows.length
    exact length_mapIdxFrom _ _ _
  · rw [hrow]
    exact length_mapIdxFrom _ _ _
  · intro hm
    rw [hrow, getD_mapIdxFrom _ 0 _ hj none none]
    simp [hm]
  · intro hm
    rw [hrow, getD_mapIdxFrom _ 0 _ hj none none]
    simp [hm]

/-- Witness for C9 on a concrete one-row table with one masked and one
unmasked cell. -/
theorem c9_mask_preserves_frame_witness :
    ((0 : ℕ) < (Df.mk [['a'], ['b']] [[some (5 : ℕ), some 7]]).rows.length ∧
     (1 : ℕ) < ((Df.mk [['a'], ['b']] [[some (5 : ℕ), some 7]]).rows.getD 0 []).length) ∧
    ((dfMask (Df.mk [['a'], ['b']] [[some (5 : ℕ), some 7]]) fun _ j => j == 1).header =
      (Df.mk [['a'], ['b']] [[some (5 : ℕ), some 7]]).header ∧
    (dfMask (Df.mk [['a'], ['b']] [[some (5 : ℕ), some 7]]) fun _ j => j == 1).rows.length =
      (Df.mk [['a'], ['b']] [[some (5 : ℕ), some 7]]).rows.length ∧
    ((dfMask (Df.mk [['a'], ['b']] [[some (5 : ℕ), some 7]]) fun _ j => j == 1).rows.getD 0
        []).length =
      ((Df.mk [['a'], ['b']] [[some (5 : ℕ), some 7]]).rows.getD 0 []).length ∧
    (((fun _ j => j == 1) : ℕ → ℕ → Bool) 0 1 = false →
      ((dfMask (Df.mk [['a'], ['b']] [[some (5 : ℕ), some 7]]) fun _ j => j == 1).rows.getD 0
          []).getD 1 none =
        ((Df.mk [['a'], ['b']] [[some (5 : ℕ), some 7]]).rows.getD 0 []).getD 1 none) ∧
    (((fun _ j => j == 1) : ℕ → ℕ → Bool) 0 1 = true →
      ((dfMask (Df.mk [['a'], ['b']] [[some (5 : ℕ), some 7]]) fun _ j => j == 1).rows.getD 0
          []).getD 1 none = none)) :=
  ⟨⟨by decide, by decide⟩,
   c9_mask_preserves_frame (Df.mk [['a'], ['b']] [[some (5 : ℕ), some 7]])
     (fun _ j => j == 1) 0 1 (by decide) (by decide)⟩

/-!
The CSV text layer: `df.to_csv(index=False)` (line 150 of `App.py`, line 119
of `App2.py`) and `pd.read_csv` (lines 47-54 of `App2.py`).  The text is a
list of characters; lines are newline-terminated, fields are joined by the
separator character.  A missing cell is rendered as the empty field; on
reading, the empty field (pandas' default NA handling for these files) and
the configured NA tokens become missing.  Field quoting never fires for the
cell contents covered here and is not modelled.
-/

/-- Rendering of one cell by `to_csv`: a missing value becomes the empty
field, a string cell is written as is. -/
def renderCell : Option (List Char) → List Char
  | none => []
  | some s => s

/-- Join fields (or lines) with a separator character. -/
def joinSep (sep : Char) : List (List Char) → List Char
  | [] => []
  | [x] => x
  | x :: y :: ys => x ++ sep :: joinSep sep (y :: ys)

/-- Newline-terminated output lines, as `to_csv` writes them. -/
def linesOut : List (List Char) → List Char
  | [] => []
  | l :: ls => l ++ '\n' :: linesOut ls

/-- Split a character list at every occurrence of `sep`. -/
def splitSep (sep : Char) : List Char → List (List Char)
  | [] => [[]]
  | c :: cs =>
    if c = sep then [] :: splitSep sep cs
    else
      match splitSep sep cs with
      | [] => [[c]]
      | h :: t => (c :: h) :: t

/-- `df.to_csv(index=False)`: the header line followed by one line per row. -/
def to_csv (sep : Char) (df : Df (Option (List Char))) : List Char :=
  linesOut (joinSep sep df.header :: df.rows.map fun r => joinSep sep (r.map renderCell))

/-- One field as parsed by `read_csv`: a configured NA token or an empty
field reads as missing, anything else is kept as text. -/
def parseCell (naValues : List (List Char)) (f : List Char) : Option (List Char) :=
  if f ∈ naValues ∨ f = [] then none else some f

/-- `pd.read_csv(...)`: split the text into lines (blank lines are skipped),
take the first line as the header and parse the remaining lines as rows of
fields; `none` models the exception raised when no data is found. -/
def read_csv (sep : Char) (naValues : List (List Char)) (text : List Char) :
    Option (Df (Option (List Char))) :=
  match (splitSep '\n' text).filter (fun l => !l.isEmpty) with
  | [] => none
  | h :: rs =>
    some ⟨splitSep sep h, rs.map fun r => (splitSep sep r).map (parseCell naValues)⟩

/-- The cells of column `j` of a table, top to bottom. -/
def colValues {α : Type} (df : Df (Option α)) (j : ℕ) : List (Option α) :=
  df.rows.map fun r => r.getD j none

lemma splitSep_append_cons (sep : Char) (x cs : List Char) (h : sep ∉ x) :
    splitSep sep (x ++ sep :: cs) = x :: splitSep sep cs := by
  induction x with
  | nil => simp [splitSep]
  | cons a x ih =>
    have ha : ¬ a = sep := by
      intro hEq
      exact h (by simp [hEq])
    have hx : sep ∉ x := by
      intro hm
      exact h (by simp [hm])
    show splitSep sep (a :: (x ++ sep :: cs)) = (a :: x) :: splitSep sep cs
    have hstep : splitSep sep (a :: (x ++ sep :: cs)) =
        match splitSep sep (x ++ sep :: cs) with
        | [] => [[a]]
        | h :: t => (a :: h) :: t := by
      conv_lhs => rw [splitSep]
      rw [if_neg ha]
    rw [hstep, ih hx]

lemma splitSep_of_not_mem (sep : Char) (x : List Char) (h : sep ∉ x) :
    splitSep sep x = [x] := by
  induction x with
  | nil => simp [splitSep]
  | cons a x ih =>
    have ha : ¬ a = sep := by
      intro hEq
      exact h (by simp [hEq])
    have hx : sep ∉ x := by
      intro hm
      exact h (by simp [hm])
    show splitSep sep (a :: x) = [a :: x]
    unfold splitSep
    rw [if_neg ha, ih hx]

lemma splitSep_linesOut (ls : List (List Char)) (h : ∀ l ∈ ls, '\n' ∉ l) :
    splitSep '\n' (linesOut ls) = ls ++ [[]] := by
  induction ls with
  | nil => simp [linesOut, splitSep]
  | cons l ls ih =>
    have hl : '\n' ∉ l := h l (by simp)
    have hls : ∀ x ∈ ls, '\n' ∉ x := fun x hx => h x (by simp [hx])
    show splitSep '\n' (l ++ '\n' :: linesOut ls) = (l :: ls) ++ [[]]
    rw [splitSep_append_cons _ _ _ hl, ih hls]
    simp

lemma mem_joinSep {sep c : Char} {xs : List (List Char)} (h : c ∈ joinSep sep xs) :
    c = sep ∨ ∃ x ∈ xs, c ∈ x := by
  induction xs with
  | nil => simp [joinSep] at h
  | cons x xs ih =>
    cases xs with
    | nil =>
      simp only [joinSep] at h
      exact Or.inr ⟨x, by simp, h⟩
    | cons y ys =>
      rw [show joinSep sep (x :: y :: ys) = x ++ sep :: joinSep sep (y :: ys) from rfl] at h
      rcases List.mem_append.mp h with h1 | h2
      · exact Or.inr ⟨x, by simp, h1⟩
      · rcases List.mem_cons.mp h2 with h3 | h4
        · exact Or.inl h3
        · rcases ih h4 with h5 | ⟨w, hw, hcw⟩
          · exact Or.inl h5
          · exact Or.inr ⟨w, by simp [hw], hcw⟩

lemma splitSep_joinSep (sep : Char) (xs : List (List Char)) (hne : xs ≠ [])
    (h : ∀ x ∈ xs, sep ∉ x) :
    splitSep sep (joinSep sep xs) = xs := by
  induction xs with
  | nil => exact absurd rfl hne
  | cons x xs ih =>
    cases xs with
    | nil =>
      show splitSep sep (joinSep sep [x]) = [x]
      rw [show joinSep sep [x] = x from rfl]
      exact splitSep_of_not_mem _ _ (h x (by simp))
    | cons y ys =>
      rw [show joinSep sep (x :: y :: ys) = x ++ sep :: joinSep sep (y :: ys) from rfl]
      rw [splitSep_append_cons _ _ _ (h x (by simp))]
      rw [ih (by simp) fun w hw => h w (by simp [hw])]

lemma joinSep_ne_nil_of_length (sep : Char) (xs : List (List Char))
    (h : 2 ≤ xs.length) : joinSep sep xs ≠ [] := by
  cases xs with
  | nil => simp at h
  | cons x xs =>
    cases xs with
    | nil => simp at h
    | cons y ys =>
      rw [show joinSep sep (x :: y :: ys) = x ++ sep :: joinSep sep (y :: ys) from rfl]
      simp

lemma bnot_isEmpty_of_ne_nil (a : List Char) (hne : a ≠ []) : (!a.isEmpty) = true := by
  cases a with
  | nil => exact absurd rfl hne
  | cons _ _ => rfl

/-- C4 (amended): exporting the current table with `to_csv(index=False)` and
re-importing the text with the loader's `read_csv` (same separator) returns
exactly the same table — same column names and, for each column, the same
cells, already-missing (injected) cells included — provided the table has at
least two columns, every row is as wide as the header, no column name
contains the separator or a newline, and no cell text is empty, contains the
separator or a newline, or coincides with a configured NA token. -/
theorem c4_csv_round_trip (sep : Char) (naValues : List (List Char))
    (df : Df (Option (List Char)))
    (hsep : sep ≠ '\n')
    (hw : 2 ≤ df.header.length)
    (hname : ∀ nm ∈ df.header, sep ∉ nm ∧ '\n' ∉ nm)
    (hlen : ∀ r ∈ df.rows, r.length = df.header.length)
    (hcell : ∀ r ∈ df.rows, ∀ c ∈ r, ∀ s ∈ c,
      s ∉ naValues ∧ s ≠ [] ∧ sep ∉ s ∧ '\n' ∉ s) :
    read_csv sep naValues (to_csv sep df) = some df := by
  have hA : ∀ l ∈ (joinSep sep df.header ::
      df.rows.map fun r => joinSep sep (r.map renderCell)), '\n' ∉ l := by
    intro l hl
    rcases List.mem_cons.mp hl with h | h
    · subst h
      intro hmem
      rcases mem_joinSep hmem with h1 | ⟨nm, hnm, hmem2⟩
      · exact hsep h1.symm
      · exact (hname nm hnm).2 hmem2
    · obtain ⟨r, hr, rfl⟩ := List.mem_map.mp h
      intro hmem
      rcases mem_joinSep hmem with h1 | ⟨f, hf, hmem2⟩
      · exact hsep h1.symm
      · obtain ⟨c, hc, rfl⟩ := List.mem_map.mp hf
        cases c with
        | none => simp [renderCell] at hmem2
        | some s => exact (hcell r hr (some s) hc s rfl).2.2.2 hmem2
  have hsplit : splitSep '\n' (to_csv sep df) =
      (joinSep sep df.header ::
        df.rows.map fun r => joinSep sep (r.map renderCell)) ++ [[]] :=
    splitSep_linesOut _ hA
  have hfil : ((joinSep sep df.header ::
        df.rows.map fun r : List (Option (List Char)) => joinSep sep (r.map renderCell)) ++
        [[]]).filter (fun l => !l.isEmpty) =
      joinSep sep df.header :: df.rows.map fun r => joinSep sep (r.map renderCell) := by
    rw [List.filter_append]
    have h2 : ([([] : List Char)]).filter (fun l => !l.isEmpty) = [] := rfl
    rw [h2, List.append_nil]
    apply List.filter_eq_self.mpr
    intro a ha
    rcases List.mem_cons.mp ha with h | h
    · subst h
      exact bnot_isEmpty_of_ne_nil _ (joinSep_ne_nil_of_length sep df.header hw)
    · obtain ⟨r, hr, rfl⟩ := List.mem_map.mp h
      have hlr : (r.map renderCell).length = df.header.length := by
        rw [List.length_map]
        exact hlen r hr
      exact bnot_isEmpty_of_ne_nil _
        (joinSep_ne_nil_of_length sep (r.map renderCell) (by omega))
  have hheader : splitSep sep (joinSep sep df.header) = df.header := by
    apply splitSep_joinSep
    · intro hnil
      rw [hnil] at hw
      simp at hw
    · intro nm hnm
      exact (hname nm hnm).1
  have hrowparse : ∀ r ∈ df.rows,
      (splitSep sep (joinSep sep (r.map renderCell))).map (parseCell naValues) = r := by
    intro r hr
    have hsp : splitSep sep (joinSep sep (r.map renderCell)) = r.map renderCell := by
      apply splitSep_joinSep
      · intro hnil
        have hlr := congrArg List.length hnil
        rw [List.length_map, hlen r hr] at hlr
        simp only [List.length_nil] at hlr
        omega
      · intro f hf
        obtain ⟨c, hc, rfl⟩ := List.mem_map.mp hf
        cases c with
        | none => simp [renderCell]
        | some s => exact (hcell r hr (some s) hc s rfl).2.2.1
    rw [hsp, List.map_map]
    have hpt : ∀ c ∈ r, (parseCell naValues ∘ renderCell) c = id c := by
      intro c hc
      cases c with
      | none => simp [parseCell, renderCell]
      | some s =>
        have h1 := hcell r hr (some s) hc s rfl
        simp [parseCell, renderCell, h1.1, h1.2.1]
    rw [List.map_congr_left hpt, List.map_id]
  unfold read_csv
  rw [hsplit, hfil]
  show some ⟨splitSep sep (joinSep sep df.header),
    (df.rows.map fun r => joinSep sep (r.map renderCell)).map
      fun r => (splitSep sep r).map (parseCell naValues)⟩ = some df
  rw [hheader, List.map_map]
  have hrows : df.rows.map ((fun r => (splitSep sep r).map (parseCell naValues)) ∘
      fun r => joinSep sep (r.map renderCell)) = df.rows := by
    have hpt2 : ∀ r ∈ df.rows,
        ((fun r => (splitSep sep r).map (parseCell naValues)) ∘
          fun r : List (Option (List Char)) => joinSep sep (r.map renderCell)) r = id r := by
      intro r hr
      simp only [Function.comp_apply, id_eq]
      exact hrowparse r hr
    rw [List.map_congr_left hpt2, List.map_id]
  rw [hrows]

/-- Counterexample to C4 as stated: a table holding the textual cell value
`"NA"` — one of the loader's configured NA tokens, not an injected missing
value — loses that value on re-import (its count in column 0 drops from 1
to 0), so the round trip does not preserve value counts for every current
table. -/
theorem c4_counterexample :
    ¬ ((read_csv ',' [['N', 'A']]
        (to_csv ',' (Df.mk [['a'], ['b']] [[some ['N', 'A'], some ['x']]]))).map
        (fun d => (colValues d 0).count (some ['N', 'A'])) =
      some ((colValues (Df.mk [['a'], ['b']] [[some ['N', 'A'], some ['x']]]) 0).count
        (some ['N', 'A']))) := by
  decide

/-- Witness for the amended C4 on a concrete two-column table with one text
cell and one missing cell. -/
theorem c4_csv_round_trip_witness :
    ((',' : Char) ≠ '\n' ∧
     2 ≤ (Df.mk [['a'], ['b']] [[some ['x'], none]]).header.length ∧
     (∀ nm ∈ (Df.mk [['a'], ['b']] [[some ['x'], none]]).header,
       (',' : Char) ∉ nm ∧ '\n' ∉ nm) ∧
     (∀ r ∈ (Df.mk [['a'], ['b']] [[some ['x'], none]]).rows,
       r.length = (Df.mk [['a'], ['b']] [[some ['x'], none]]).header.length) ∧
     (∀ r ∈ (Df.mk [['a'], ['b']] [[some ['x'], none]]).rows, ∀ c ∈ r, ∀ s ∈ c,
       s ∉ [['N', 'A']] ∧ s ≠ [] ∧ (',' : Char) ∉ s ∧ '\n' ∉ s)) ∧
    read_csv ',' [['N', 'A']] (to_csv ',' (Df.mk [['a'], ['b']] [[some ['x'], none]])) =
      some (Df.mk [['a'], ['b']] [[some ['x'], none]]) :=
  ⟨⟨by decide, by decide, by decide, by decide, by decide⟩,
   c4_csv_round_trip ',' [['N', 'A']] (Df.mk [['a'], ['b']] [[some ['x'], none]])
     (by decide) (by decide) (by decide) (by decide) (by decide)⟩

/-!
Column-oriented view for `detectar_y_parsear_fechas` (lines 27-37 of
`App2.py`): a pandas column has a name, a dtype and cells.  The call
`pd.to_datetime(col, errors="raise", dayfirst=dayfirst)` is modelled by an
abstract parser `tryParse`; `none` is the raised exception, `some parsed`
the successfully parsed datetime column.
-/

inductive Dtype where
  | objectT
  | int64T
  | float64T
  | datetimeT
  deriving DecidableEq

/-- A pandas column: its name, dtype and cells. -/
structure PCol (α : Type) where
  name : List Char
  dtype : Dtype
  cells : List α

/-- `detectar_y_parsear_fechas(df, dayfirst)`: every object-dtype column is
tentatively parsed as dates; on success the column is replaced by the parsed
datetimes, on an exception the column is left as it was.  Non-object columns
are never touched. -/
def detectar_y_parsear_fechas {α : Type} (tryParse : Bool → List α → Option (List α))
    (df : List (PCol α)) (dayfirst : Bool) : List (PCol α) :=
  df.map fun c =>
    if c.dtype = Dtype.objectT then
      match tryParse dayfirst c.cells with
      | some parsed => ⟨c.name, Dtype.datetimeT, parsed⟩
      | none => c
    else c

lemma getD_map_of_lt {α β : Type} (f : α → β) (l : List α) {i : ℕ} (h : i < l.length)
    (da : α) (db : β) : (l.map f).getD i db = f (l.getD i da) := by
  induction l generalizing i with
  | nil => simp at h
  | cons a as ih =>
    cases i with
    | zero => simp
    | succ j =>
      have hj : j < as.length := by simpa using h
      simp only [List.map_cons, List.getD_cons_succ]
      exact ih hj

lemma detectar_getD {α : Type} (tryParse : Bool → List α → Option (List α))
    (df : List (PCol α)) (dayfirst : Bool) {i : ℕ} (h : i < df.length) (d : PCol α) :
    (detectar_y_parsear_fechas tryParse df dayfirst).getD i d =
      if (df.getD i d).dtype = Dtype.objectT then
        match tryParse dayfirst (df.getD i d).cells with
        | some parsed => (⟨(df.getD i d).name, Dtype.datetimeT, parsed⟩ : PCol α)
        | none => df.getD i d
      else df.getD i d := by
  unfold detectar_y_parsear_fechas
  exact getD_map_of_lt _ _ h d d

/-- C6: whenever the date-parse attempt on a column raises (modelled by
`tryParse` returning `none`), `detectar_y_parsear_fechas` leaves that column
exactly equal to its original value; and a column is changed at all only
when parsing the whole column succeeded, in which case it is replaced by the
parsed datetime column. -/
theorem c6_date_parse_failure_keeps_column {α : Type}
    (tryParse : Bool → List α → Option (List α)) (df : List (PCol α)) (dayfirst : Bool)
    (i : ℕ) (h : i < df.length) (d : PCol α) :
    (tryParse dayfirst (df.getD i d).cells = none →
      (detectar_y_parsear_fechas tryParse df dayfirst).getD i d = df.getD i d) ∧
    ((detectar_y_parsear_fechas tryParse df dayfirst).getD i d ≠ df.getD i d →
      ∃ p, tryParse dayfirst (df.getD i d).cells = some p ∧
        (df.getD i d).dtype = Dtype.objectT ∧
        (detectar_y_parsear_fechas tryParse df dayfirst).getD i d =
          ⟨(df.getD i d).name, Dtype.datetimeT, p⟩) := by
  have hget := detectar_getD tryParse df dayfirst h d
  constructor
  · intro hfail
    by_cases ho : (df.getD i d).dtype = Dtype.objectT
    · rw [hget, if_pos ho, hfail]
    · rw [hget, if_neg ho]
  · intro hne
    rw [hget] at hne
    by_cases ho : (df.getD i d).dtype = Dtype.objectT
    · rw [if_pos ho] at hne
      cases hp : tryParse dayfirst (df.getD i d).cells with
      | none =>
        rw [hp] at hne
        exact absurd rfl hne
      | some p =>
        exact ⟨p, rfl, ho, by rw [hget, if_pos ho, hp]⟩
    · rw [if_neg ho] at hne
      exact absurd rfl hne

/-- Witness for C6 on a concrete one-column object-dtype table with an
always-raising parser. -/
theorem c6_date_parse_failure_keeps_column_witness :
    (0 : ℕ) < [PCol.mk ['a'] Dtype.objectT [(3 : ℕ)]].length ∧
    (((fun _ _ => none) : Bool → List ℕ → Option (List ℕ)) true
        ([PCol.mk ['a'] Dtype.objectT [(3 : ℕ)]].getD 0
          (PCol.mk [] Dtype.objectT [])).cells = none →
      (detectar_y_parsear_fechas (fun _ _ => none)
          [PCol.mk ['a'] Dtype.objectT [(3 : ℕ)]] true).getD 0
          (PCol.mk [] Dtype.objectT []) =
        [PCol.mk ['a'] Dtype.objectT [(3 : ℕ)]].getD 0 (PCol.mk [] Dtype.objectT [])) ∧
    ((detectar_y_parsear_fechas (fun _ _ => none)
        [PCol.mk ['a'] Dtype.objectT [(3 : ℕ)]] true).getD 0
        (PCol.mk [] Dtype.objectT []) ≠
      [PCol.mk ['a'] Dtype.objectT [(3 : ℕ)]].getD 0 (PCol.mk [] Dtype.objectT []) →
      ∃ p, ((fun _ _ => none) : Bool → List ℕ → Option (List ℕ)) true
          ([PCol.mk ['a'] Dtype.objectT [(3 : ℕ)]].getD 0
            (PCol.mk [] Dtype.objectT [])).cells = some p ∧
        ([PCol.mk ['a'] Dtype.objectT [(3 : ℕ)]].getD 0
          (PCol.mk [] Dtype.objectT [])).dtype = Dtype.objectT ∧
        (detectar_y_parsear_fechas (fun _ _ => none)
            [PCol.mk ['a'] Dtype.objectT [(3 : ℕ)]] true).getD 0
            (PCol.mk [] Dtype.objectT []) =
          ⟨([PCol.mk ['a'] Dtype.objectT [(3 : ℕ)]].getD 0
            (PCol.mk [] Dtype.objectT [])).name, Dtype.datetimeT, p⟩) :=
  ⟨by decide,
   c6_date_parse_failure_keeps_column (fun _ _ => none)
     [PCol.mk ['a'] Dtype.objectT [(3 : ℕ)]] true 0 (by decide)
     (PCol.mk [] Dtype.objectT [])⟩

/-- C10: `detectar_y_parsear_fechas` never modifies a column whose dtype is
not object: such a column of the result is exactly the corresponding input
column. -/
theorem c10_non_object_columns_untouched {α : Type}
    (tryParse : Bool → List α → Option (List α)) (df : List (PCol α)) (dayfirst : Bool)
    (i : ℕ) (h : i < df.length) (d : PCol α)
    (ho : (df.getD i d).dtype ≠ Dtype.objectT) :
    (detectar_y_parsear_fechas tryParse df dayfirst).getD i d = df.getD i d := by
  rw [detectar_getD tryParse df dayfirst h d, if_neg ho]

/-- Witness for C10 on a concrete one-column int64 table with a parser that
always succeeds (and still must not touch the numeric column). -/
theorem c10_non_object_columns_untouched_witness :
    ((0 : ℕ) < [PCol.mk ['a'] Dtype.int64T [(3 : ℕ)]].length ∧
     ([PCol.mk ['a'] Dtype.int64T [(3 : ℕ)]].getD 0
       (PCol.mk [] Dtype.objectT [])).dtype ≠ Dtype.objectT) ∧
    (detectar_y_parsear_fechas ((fun _ l => some l) : Bool → List ℕ → Option (List ℕ))
        [PCol.mk ['a'] Dtype.int64T [(3 : ℕ)]] true).getD 0
        (PCol.mk [] Dtype.objectT []) =
      [PCol.mk ['a'] Dtype.int64T [(3 : ℕ)]].getD 0 (PCol.mk [] Dtype.objectT []) :=
  ⟨⟨by decide, by decide⟩,
   c10_non_object_columns_untouched (fun _ l => some l)
     [PCol.mk ['a'] Dtype.int64T [(3 : ℕ)]] true 0 (by decide)
     (PCol.mk [] Dtype.objectT []) (by decide)⟩

/-!
Top-level control flow of the two dashboards.  Rendering is modelled as the
list of widgets the script emits before `st.stop()` (or until the end);
`pd.read_csv` with the session's parameters is an abstract `reader` whose
`Except.error` case is the caught exception, and `detectar_y_parsear_fechas`
on the loaded frame is an abstract `dateFix` step.
-/

inductive Widget where
  | infoW
  | successW
  | warningW
  | errorW (msg : List Char)
  | dataTable (df : Df (Option (List Char)))
  | downloadButton (payload : List Char)
  | statsView
  | chartsView

/-- Widgets that present the working table or anything derived from it: the
data view, the download button, the summary statistics and the charts. -/
def rendersData : Widget → Bool
  | Widget.dataTable _ => true
  | Widget.downloadButton _ => true
  | Widget.statsView => true
  | Widget.chartsView => true
  | _ => false

/-- Message head of line 59 of `App2.py`: `f"❌ Error leyendo el CSV: {e}"`. -/
def errHead : List Char := "❌ Error leyendo el CSV: ".data

/-- The sidebar inputs of `App2.py` that drive the control flow. -/
structure App2Inputs where
  uploaded : Option (List Char)
  parseDatesOpt : Bool
  dayfirst : Bool
  tamMuestra : ℕ
  sampleIdx : ℕ → ℕ
  colsSeleccion : List (List Char)
  pctNa : ℕ
  naMask : ℕ → ℕ → Bool

/-- The rendering flow of `App.py` after the dataset is generated (lines
124-239): with no column selected, a warning is shown and the script stops;
otherwise the selected columns are taken, missing values are injected when
requested, and the data view, download button, statistics and charts are
rendered. -/
def runApp1 (dfFull : Df (Option (List Char))) (sel : List (List Char)) (pctNa : ℕ)
    (m : ℕ → ℕ → Bool) : List Widget :=
  if sel.isEmpty then [Widget.warningW]
  else
    let df0 := dfSelect dfFull sel
    let df := if 0 < pctNa then dfMask df0 m else df0
    [Widget.dataTable df, Widget.downloadButton (to_csv ',' df),
     Widget.statsView, Widget.chartsView]

/-- The rendering flow of `App2.py` (lines 42-229): no upload shows an info
message and stops; a reading exception shows the error message and stops; an
empty frame or an empty column selection warns and stops; otherwise the
sampled, column-restricted, optionally NA-injected table is rendered with
its download button, statistics and charts. -/
def runApp2 (reader : List Char → Except (List Char) (Df (Option (List Char))))
    (dateFix : Bool → Df (Option (List Char)) → Df (Option (List Char)))
    (inp : App2Inputs) : List Widget :=
  match inp.uploaded with
  | none => [Widget.infoW]
  | some file =>
    match reader file with
    | Except.error e => [Widget.errorW (errHead ++ e)]
    | Except.ok df0 =>
      let dfAll := if inp.parseDatesOpt then dateFix inp.dayfirst df0 else df0
      if dfAll.rows.isEmpty then [Widget.successW, Widget.warningW]
      else
        let dfSampled := dfSample dfAll inp.tamMuestra inp.sampleIdx
        if inp.colsSeleccion.isEmpty then [Widget.successW, Widget.warningW]
        else
          let df1 := dfSelect dfSampled inp.colsSeleccion
          let df := if 0 < inp.pctNa then dfMask df1 inp.naMask else df1
          [Widget.successW, Widget.dataTable df,
           Widget.downloadButton (to_csv ',' df), Widget.statsView, Widget.chartsView]

/-- C5: whenever reading the uploaded CSV raises, the exception is caught,
an error message containing the raised message is shown, and the session
halts: the output is exactly that error message, and no data view, download,
statistics or charts are rendered. -/
theorem c5_parse_failure_halts
    (reader : List Char → Except (List Char) (Df (Option (List Char))))
    (dateFix : Bool → Df (Option (List Char)) → Df (Option (List Char)))
    (inp : App2Inputs) (file e : List Char)
    (h1 : inp.uploaded = some file) (h2 : reader file = Except.error e) :
    runApp2 reader dateFix inp = [Widget.errorW (errHead ++ e)] ∧
    e <:+ errHead ++ e ∧
    ∀ w ∈ runApp2 reader dateFix inp, rendersData w = false := by
  have hrun : runApp2 reader dateFix inp = [Widget.errorW (errHead ++ e)] := by
    unfold runApp2
    rw [h1]
    simp only [h2]
  refine ⟨hrun, List.suffix_append _ _, ?_⟩
  rw [hrun]
  intro w hw
  simp only [List.mem_singleton] at hw
  subst hw
  rfl

/-- A reader that always raises, with message `"x"`. -/
def readerFail : List Char → Except (List Char) (Df (Option (List Char))) :=
  fun _ => Except.error ['x']

/-- A date-fixing step that leaves the frame unchanged. -/
def dateFixId : Bool → Df (Option (List Char)) → Df (Option (List Char)) :=
  fun _ d => d

/-- Concrete sidebar inputs with an uploaded file. -/
def inpFail : App2Inputs :=
  ⟨some ['a'], false, true, 0, id, [], 0, fun _ _ => false⟩

/-- Witness for C5 with a concrete failing reader. -/
theorem c5_parse_failure_halts_witness :
    (inpFail.uploaded = some ['a'] ∧ readerFail ['a'] = Except.error ['x']) ∧
    (runApp2 readerFail dateFixId inpFail = [Widget.errorW (errHead ++ ['x'])] ∧
     ['x'] <:+ errHead ++ ['x'] ∧
     ∀ w ∈ runApp2 readerFail dateFixId inpFail, rendersData w = false) :=
  ⟨⟨rfl, rfl⟩, c5_parse_failure_halts readerFail dateFixId inpFail ['a'] ['x'] rfl rfl⟩

/-- C7: in both dashboards, selecting zero columns emits a warning and halts
before the working table is built: neither dashboard renders a data view,
download button, statistics or charts for an empty column selection. -/
theorem c7_zero_columns_halt
    (dfFull : Df (Option (List Char))) (sel : List (List Char)) (pctNa : ℕ)
    (m : ℕ → ℕ → Bool)
    (reader : List Char → Except (List Char) (Df (Option (List Char))))
    (dateFix : Bool → Df (Option (List Char)) → Df (Option (List Char)))
    (inp : App2Inputs) (file : List Char) (d0 : Df (Option (List Char)))
    (hsel : sel = []) (h1 : inp.uploaded = some file) (h2 : reader file = Except.ok d0)
    (h3 : (if inp.parseDatesOpt then dateFix inp.dayfirst d0 else d0).rows.isEmpty = false)
    (h4 : inp.colsSeleccion = []) :
    runApp1 dfFull sel pctNa m = [Widget.warningW] ∧
    (∀ w ∈ runApp1 dfFull sel pctNa m, rendersData w = false) ∧
    runApp2 reader dateFix inp = [Widget.successW, Widget.warningW] ∧
    (∀ w ∈ runApp2 reader dateFix inp, rendersData w = false) := by
  have ha1 : runApp1 dfFull sel pctNa m = [Widget.warningW] := by
    subst hsel
    rfl
  have ha2 : runApp2 reader dateFix inp = [Widget.successW, Widget.warningW] := by
    unfold runApp2
    rw [h1]
    simp [h2, h3, h4]
  refine ⟨ha1, ?_, ha2, ?_⟩
  · rw [ha1]
    intro w hw
    simp only [List.mem_singleton] at hw
    subst hw
    rfl
  · rw [ha2]
    intro w hw
    simp only [List.mem_cons, List.mem_singleton] at hw
    rcases hw with rfl | hw
    · rfl
    · rcases hw with rfl | hw
      · rfl
      · simp at hw

/-- A reader that always succeeds with a nonempty one-column frame. -/
def readerOk : List Char → Except (List Char) (Df (Option (List Char))) :=
  fun _ => Except.ok (Df.mk [['a']] [[some ['b']]])

/-- Concrete sidebar inputs with an uploaded file and zero selected columns. -/
def inpZeroCols : App2Inputs :=
  ⟨some ['a'], false, true, 1, id, [], 0, fun _ _ => false⟩

/-- Witness for C7 with concrete tables and a zero-column selection. -/
theorem c7_zero_columns_halt_witness :
    (([] : List (List Char)) = [] ∧
     inpZeroCols.uploaded = some ['a'] ∧
     readerOk ['a'] = Except.ok (Df.mk [['a']] [[some ['b']]]) ∧
     (if inpZeroCols.parseDatesOpt then
        dateFixId inpZeroCols.dayfirst (Df.mk [['a']] [[some ['b']]])
      else (Df.mk [['a']] [[some ['b']]])).rows.isEmpty = false ∧
     inpZeroCols.colsSeleccion = []) ∧
    (runApp1 (Df.mk [['a']] [[some ['b']]]) [] 0 (fun _ _ => false) = [Widget.warningW] ∧
     (∀ w ∈ runApp1 (Df.mk [['a']] [[some ['b']]]) [] 0 (fun _ _ => false),
       rendersData w = false) ∧
     runApp2 readerOk dateFixId inpZeroCols = [Widget.successW, Widget.warningW] ∧
     (∀ w ∈ runApp2 readerOk dateFixId inpZeroCols, rendersData w = false)) :=
  ⟨⟨rfl, rfl, rfl, rfl, rfl⟩,
   c7_zero_columns_halt (Df.mk [['a']] [[some ['b']]]) [] 0 (fun _ _ => false)
     readerOk dateFixId inpZeroCols ['a'] (Df.mk [['a']] [[some ['b']]])
     rfl rfl rfl rfl rfl⟩
